import Mathlib

/-!
Verification of the Environmental Impact Prediction & Mitigation Scoring Engine.

Shallow embedding of the risk predictors and aggregators found in
`src/ml_models/` and `src/utils/geospatial.py`.  All Python floats are
modelled as exact rationals (`ℚ`); Python's `round(x, n)` (banker's
rounding) is modelled by `pyRound`, and Python's `int(x)` truncation
toward zero by `pyInt`.  Python dictionaries read with `.get(key, default)`
are modelled as `Option` values, one per key that the code reads.
The wall-clock timestamp `datetime.now().isoformat()` that the analysers
store in their metadata is modelled as an explicit `now : String`
parameter.
-/

/-- Python's `int(x)` truncates toward zero. -/
def pyInt (q : ℚ) : ℤ := if 0 ≤ q then ⌊q⌋ else ⌈q⌉

/-- Python's `round` to an integer: round half to even (banker's rounding). -/
def pyRoundInt (q : ℚ) : ℤ :=
  if q - ⌊q⌋ < 1/2 then ⌊q⌋
  else if 1/2 < q - ⌊q⌋ then ⌊q⌋ + 1
  else if ⌊q⌋ % 2 = 0 then ⌊q⌋ else ⌊q⌋ + 1

/-- Python's `round(x, n)` for `n` decimal digits. -/
def pyRound (q : ℚ) (n : ℕ) : ℚ := (pyRoundInt (q * 10 ^ n) : ℚ) / 10 ^ n

/-- Shoelace area computation shared verbatim by `_calculate_area` in
`heat_island_predictor.py`, `water_absorption_predictor.py`,
`air_quality_predictor.py` and `uhi_analyzer.py`: absolute shoelace sum
over the raw lon/lat pairs, halved, times `111.32 * 111.32`. -/
def shoelaceSum (coordinates : List (ℚ × ℚ)) : ℚ :=
  let n := coordinates.length
  (List.range n).foldl
    (fun acc i =>
      let j := (i + 1) % n
      let ci := coordinates.getD i (0, 0)
      let cj := coordinates.getD j (0, 0)
      acc + ci.1 * cj.2 - cj.1 * ci.2) 0

/-- The predictors' `_calculate_area`: no validation is performed, the
shoelace value is computed for every input list. -/
def calculate_area (coordinates : List (ℚ × ℚ)) : ℚ :=
  |shoelaceSum coordinates| / 2 * 111.32 * 111.32

/-- `GeospatialProcessor.validate_coordinates` from `utils/geospatial.py`:
at least 3 vertices, each with longitude in [-180, 180] and latitude in
[-90, 90].  It returns a `Bool`; it raises nothing.  (The Python check
that each vertex is a 2-element list is enforced here by the pair type.) -/
def validate_coordinates (coordinates : List (ℚ × ℚ)) : Bool :=
  if coordinates.length < 3 then false
  else coordinates.all fun c =>
    decide (-180 ≤ c.1) && decide (c.1 ≤ 180) &&
    decide (-90 ≤ c.2) && decide (c.2 ≤ 90)

/-- Rank of the five risk-level strings, used to state that the bucketing
is monotone.  Unknown strings rank lowest. -/
def levelRank : String → ℕ
  | "Very Low" => 0
  | "Low" => 1
  | "Medium" => 2
  | "High" => 3
  | "Very High" => 4
  | _ => 0

/-- Confidence interval record returned by every `predict` path. -/
structure ConfidenceInterval where
  lower_bound : ℚ
  upper_bound : ℚ
  confidence_level : ℚ
deriving DecidableEq

namespace HeatIsland

/-- `HeatIslandPredictor._predict_temperature_increase`: the `coordinates`
argument is accepted but unused by the source body. -/
def predict_temperature_increase (coordinates : List (ℚ × ℚ))
    (area_km2 : ℚ) (time_horizon : ℤ) : ℚ :=
  let base_increase : ℚ := 1
  let area_factor := min (area_km2 / 10) 2
  let time_factor := (time_horizon : ℚ) / 10
  base_increase * area_factor * time_factor

/-- `HeatIslandPredictor._calculate_heat_risk_score`. -/
def calculate_heat_risk_score (temperature_increase area_km2 : ℚ) : ℚ :=
  let temp_score := min (temperature_increase / 5) 1
  let area_score := min (area_km2 / 100) 1
  0.7 * temp_score + 0.3 * area_score

/-- `HeatIslandPredictor._determine_risk_level`. -/
def determine_risk_level (risk_score : ℚ) : String :=
  if 0.8 ≤ risk_score then "Very High"
  else if 0.6 ≤ risk_score then "High"
  else if 0.4 ≤ risk_score then "Medium"
  else if 0.2 ≤ risk_score then "Low"
  else "Very Low"

/-- `HeatIslandPredictor._estimate_population_at_risk`. -/
def estimate_population_at_risk (area_km2 : ℚ) : ℤ :=
  pyInt (area_km2 * 1000)

/-- Result dictionary of `analyze_heat_island_effect` (the metadata keys
`coordinates`, `time_horizon` and `analysis_date` are included; the
constant `model_version` string is omitted). -/
structure HeatAnalysis where
  current_temperature : ℚ
  predicted_temperature : ℚ
  temperature_increase : ℚ
  heat_risk_score : ℚ
  heat_risk_level : String
  affected_area_km2 : ℚ
  population_at_risk : ℤ
  coordinates : List (ℚ × ℚ)
  time_horizon : ℤ
  analysis_date : String
deriving DecidableEq

/-- `HeatIslandPredictor.analyze_heat_island_effect`.  The `now` argument
models the `datetime.now().isoformat()` call in the metadata. -/
def analyze_heat_island_effect (coordinates : List (ℚ × ℚ))
    (time_horizon : ℤ) (now : String) : HeatAnalysis :=
  let area_km2 := calculate_area coordinates
  let current_temperature : ℚ := 25
  let temperature_increase :=
    predict_temperature_increase coordinates area_km2 time_horizon
  let predicted_temperature := current_temperature + temperature_increase
  let heat_risk_score := calculate_heat_risk_score temperature_increase area_km2
  let risk_level := determine_risk_level heat_risk_score
  { current_temperature := pyRound current_temperature 2
    predicted_temperature := pyRound predicted_temperature 2
    temperature_increase := pyRound temperature_increase 2
    heat_risk_score := pyRound heat_risk_score 3
    heat_risk_level := risk_level
    affected_area_km2 := pyRound area_km2 2
    population_at_risk := estimate_population_at_risk area_km2
    coordinates := coordinates
    time_horizon := time_horizon
    analysis_date := now }

/-- Strip the wall-clock field so that clock-independent content can be
compared between runs. -/
def HeatAnalysis.stripDate (r : HeatAnalysis) : HeatAnalysis :=
  { r with analysis_date := "" }

/-- Feature bag accepted by `HeatIslandPredictor.predict`; `none` models a
key absent from the `input_data` dictionary. -/
structure HeatInput where
  base_temperature : Option ℚ := none
  building_density : Option ℚ := none
  vegetation_cover : Option ℚ := none
  albedo : Option ℚ := none
  area_km2 : Option ℚ := none
  population_density : Option ℚ := none

/-- Predictions sub-dictionary of `HeatIslandPredictor.predict`. -/
structure HeatPredictions where
  temperature_increase : ℚ
  heat_risk_score : ℚ
  affected_area : ℚ
deriving DecidableEq

/-- Result of `HeatIslandPredictor.predict` (metadata omitted). -/
structure HeatPredictionResult where
  predictions : HeatPredictions
  confidence_intervals : ConfidenceInterval
deriving DecidableEq

/-- `HeatIslandPredictor.predict`: note that `heat_risk_score` is
`round(temperature_increase / 5.0, 3)` with no clamping whatsoever.
The `model_loaded` guard of the source is always true. -/
def predict (input_data : HeatInput) (horizon : ℤ)
    (confidence_level : ℚ) : HeatPredictionResult :=
  let building_density := input_data.building_density.getD 0.5
  let vegetation_cover := input_data.vegetation_cover.getD 0.3
  let albedo := input_data.albedo.getD 0.3
  let temperature_increase :=
    (building_density * 2 + (1 - vegetation_cover) * 1.5 +
      (1 - albedo) * 1) * ((horizon : ℚ) / 10)
  let margin := temperature_increase * 0.2
  { predictions :=
      { temperature_increase := pyRound temperature_increase 2
        heat_risk_score := pyRound (temperature_increase / 5.0) 3
        affected_area := input_data.area_km2.getD 1 }
    confidence_intervals :=
      { lower_bound := pyRound (temperature_increase - margin) 2
        upper_bound := pyRound (temperature_increase + margin) 2
        confidence_level := confidence_level } }

end HeatIsland

namespace WaterAbsorption

/-- `WaterAbsorptionPredictor._predict_absorption_change`: the
`coordinates` argument is accepted but unused by the source body. -/
def predict_absorption_change (coordinates : List (ℚ × ℚ))
    (area_km2 : ℚ) (time_horizon : ℤ) : ℚ :=
  let base_change : ℚ := -0.1
  let area_factor := min (area_km2 / 10) 2
  let time_factor := (time_horizon : ℚ) / 10
  base_change * area_factor * time_factor

/-- `WaterAbsorptionPredictor._calculate_flood_risk_score`. -/
def calculate_flood_risk_score (absorption_rate area_km2 : ℚ) : ℚ :=
  let absorption_score := 1 - absorption_rate
  let area_score := min (area_km2 / 100) 1
  0.8 * absorption_score + 0.2 * area_score

/-- `WaterAbsorptionPredictor._determine_risk_level`. -/
def determine_risk_level (risk_score : ℚ) : String :=
  if 0.8 ≤ risk_score then "Very High"
  else if 0.6 ≤ risk_score then "High"
  else if 0.4 ≤ risk_score then "Medium"
  else if 0.2 ≤ risk_score then "Low"
  else "Very Low"

/-- `WaterAbsorptionPredictor._calculate_drainage_efficiency`. -/
def calculate_drainage_efficiency (absorption_rate : ℚ) : ℚ :=
  min (absorption_rate * 1.2) 1

/-- `WaterAbsorptionPredictor._estimate_impervious_surface`. -/
def estimate_impervious_surface (area_km2 : ℚ) : ℚ :=
  let base_percentage : ℚ := 50
  let area_factor := min (area_km2 / 10) 1
  min (base_percentage + area_factor * 20) 90

/-- Result dictionary of `analyze_water_absorption` (metadata keys
`coordinates`, `time_horizon`, `analysis_date` included). -/
structure WaterAnalysis where
  current_absorption_rate : ℚ
  predicted_absorption_rate : ℚ
  absorption_rate_change : ℚ
  flood_risk_score : ℚ
  flood_risk_level : String
  drainage_efficiency : ℚ
  impervious_surface_percentage : ℚ
  affected_area_km2 : ℚ
  coordinates : List (ℚ × ℚ)
  time_horizon : ℤ
  analysis_date : String
deriving DecidableEq

/-- `WaterAbsorptionPredictor.analyze_water_absorption`. -/
def analyze_water_absorption (coordinates : List (ℚ × ℚ))
    (time_horizon : ℤ) (now : String) : WaterAnalysis :=
  let area_km2 := calculate_area coordinates
  let current_absorption_rate : ℚ := 0.6
  let absorption_change :=
    predict_absorption_change coordinates area_km2 time_horizon
  let predicted_absorption_rate :=
    max 0 (current_absorption_rate + absorption_change)
  let flood_risk_score :=
    calculate_flood_risk_score predicted_absorption_rate area_km2
  let risk_level := determine_risk_level flood_risk_score
  { current_absorption_rate := pyRound current_absorption_rate 3
    predicted_absorption_rate := pyRound predicted_absorption_rate 3
    absorption_rate_change := pyRound absorption_change 3
    flood_risk_score := pyRound flood_risk_score 3
    flood_risk_level := risk_level
    drainage_efficiency :=
      pyRound (calculate_drainage_efficiency predicted_absorption_rate) 3
    impervious_surface_percentage :=
      pyRound (estimate_impervious_surface area_km2) 1
    affected_area_km2 := pyRound area_km2 2
    coordinates := coordinates
    time_horizon := time_horizon
    analysis_date := now }

/-- Strip the wall-clock field for clock-independent comparison. -/
def WaterAnalysis.stripDate (r : WaterAnalysis) : WaterAnalysis :=
  { r with analysis_date := "" }

/-- Feature bag of `WaterAbsorptionPredictor.predict`. -/
structure WaterInput where
  soil_type : Option ℚ := none
  slope : Option ℚ := none
  impervious_surface : Option ℚ := none
  drainage_infrastructure : Option ℚ := none
  area_km2 : Option ℚ := none
  precipitation : Option ℚ := none

/-- Predictions sub-dictionary of `WaterAbsorptionPredictor.predict`. -/
structure WaterPredictions where
  absorption_rate : ℚ
  flood_risk_score : ℚ
  drainage_efficiency : ℚ
deriving DecidableEq

/-- Result of `WaterAbsorptionPredictor.predict` (metadata omitted). -/
structure WaterPredictionResult where
  predictions : WaterPredictions
  confidence_intervals : ConfidenceInterval
deriving DecidableEq

/-- `WaterAbsorptionPredictor.predict`: `flood_risk_score` is
`round(1 - absorption_rate, 3)` and `absorption_rate` is not clamped. -/
def predict (input_data : WaterInput) (horizon : ℤ)
    (confidence_level : ℚ) : WaterPredictionResult :=
  let soil_type := input_data.soil_type.getD 0.5
  let slope := input_data.slope.getD 0.1
  let impervious_surface := input_data.impervious_surface.getD 0.3
  let drainage_infrastructure := input_data.drainage_infrastructure.getD 0.5
  let absorption_rate :=
    (1 - soil_type) * 0.4 + (1 - impervious_surface) * 0.3 +
      drainage_infrastructure * 0.2 + (1 - slope / 45) * 0.1
  let margin := absorption_rate * 0.15
  { predictions :=
      { absorption_rate := pyRound absorption_rate 3
        flood_risk_score := pyRound (1 - absorption_rate) 3
        drainage_efficiency :=
          pyRound (absorption_rate * drainage_infrastructure) 3 }
    confidence_intervals :=
      { lower_bound := pyRound (absorption_rate - margin) 3
        upper_bound := pyRound (absorption_rate + margin) 3
        confidence_level := confidence_level } }

end WaterAbsorption

namespace AirQuality

/-- `AirQualityPredictor._predict_aqi_change`: the `coordinates` argument
is accepted but unused by the source body. -/
def predict_aqi_change (coordinates : List (ℚ × ℚ))
    (area_km2 : ℚ) (time_horizon : ℤ) : ℚ :=
  let base_change : ℚ := 10
  let area_factor := min (area_km2 / 10) 2
  let time_factor := (time_horizon : ℚ) / 10
  base_change * area_factor * time_factor

/-- `AirQualityPredictor._calculate_air_quality_risk_score`: piecewise
AQI-band mapping into [0, 1]. -/
def calculate_air_quality_risk_score (aqi : ℚ) : ℚ :=
  if aqi ≤ 50 then 0
  else if aqi ≤ 100 then (aqi - 50) / 50 * 0.2
  else if aqi ≤ 150 then 0.2 + (aqi - 100) / 50 * 0.3
  else if aqi ≤ 200 then 0.5 + (aqi - 150) / 50 * 0.3
  else 0.8 + min ((aqi - 200) / 300) 1 * 0.2

/-- `AirQualityPredictor._determine_risk_level`. -/
def determine_risk_level (risk_score : ℚ) : String :=
  if 0.8 ≤ risk_score then "Very High"
  else if 0.6 ≤ risk_score then "High"
  else if 0.4 ≤ risk_score then "Medium"
  else if 0.2 ≤ risk_score then "Low"
  else "Very Low"

/-- `AirQualityPredictor._calculate_pollutant_concentrations`. -/
structure Pollutants where
  pm2_5 : ℚ
  no2 : ℚ
  o3 : ℚ
  pm10 : ℚ
deriving DecidableEq

/-- `AirQualityPredictor._calculate_pollutant_concentrations`. -/
def calculate_pollutant_concentrations (aqi : ℚ) : Pollutants :=
  { pm2_5 := pyRound (aqi * 0.8) 1
    no2 := pyRound (aqi * 0.6) 1
    o3 := pyRound (aqi * 0.7) 1
    pm10 := pyRound (aqi * 0.9) 1 }

/-- `AirQualityPredictor._estimate_population_at_risk`. -/
def estimate_population_at_risk (area_km2 aqi : ℚ) : ℤ :=
  let risk_factor : ℚ :=
    if aqi ≤ 50 then 0
    else if aqi ≤ 100 then 0.1
    else if aqi ≤ 150 then 0.3
    else if aqi ≤ 200 then 0.6
    else 1
  let total_population := pyInt (area_km2 * 1000)
  pyInt ((total_population : ℚ) * risk_factor)

/-- Result dictionary of `analyze_air_quality_impact` (metadata keys
`coordinates`, `time_horizon`, `analysis_date` included). -/
structure AirAnalysis where
  current_air_quality_index : ℚ
  predicted_air_quality_index : ℚ
  aqi_change : ℚ
  air_quality_risk_score : ℚ
  air_quality_risk_level : String
  pollutant_concentrations : Pollutants
  affected_area_km2 : ℚ
  population_at_risk : ℤ
  coordinates : List (ℚ × ℚ)
  time_horizon : ℤ
  analysis_date : String
deriving DecidableEq

/-- `AirQualityPredictor.analyze_air_quality_impact`. -/
def analyze_air_quality_impact (coordinates : List (ℚ × ℚ))
    (time_horizon : ℤ) (now : String) : AirAnalysis :=
  let area_km2 := calculate_area coordinates
  let current_air_quality_index : ℚ := 75
  let aqi_change := predict_aqi_change coordinates area_km2 time_horizon
  let predicted_aqi :=
    max 0 (min 500 (current_air_quality_index + aqi_change))
  let air_quality_risk_score := calculate_air_quality_risk_score predicted_aqi
  let risk_level := determine_risk_level air_quality_risk_score
  { current_air_quality_index := pyRound current_air_quality_index 1
    predicted_air_quality_index := pyRound predicted_aqi 1
    aqi_change := pyRound aqi_change 1
    air_quality_risk_score := pyRound air_quality_risk_score 3
    air_quality_risk_level := risk_level
    pollutant_concentrations := calculate_pollutant_concentrations predicted_aqi
    affected_area_km2 := pyRound area_km2 2
    population_at_risk := estimate_population_at_risk area_km2 predicted_aqi
    coordinates := coordinates
    time_horizon := time_horizon
    analysis_date := now }

/-- Strip the wall-clock field for clock-independent comparison. -/
def AirAnalysis.stripDate (r : AirAnalysis) : AirAnalysis :=
  { r with analysis_date := "" }

/-- Feature bag of `AirQualityPredictor.predict`. -/
structure AirInput where
  traffic_density : Option ℚ := none
  industrial_zones : Option ℚ := none
  vegetation_cover : Option ℚ := none
  wind_speed : Option ℚ := none
  area_km2 : Option ℚ := none
  population_density : Option ℚ := none

/-- Predictions sub-dictionary of `AirQualityPredictor.predict`. -/
structure AirPredictions where
  air_quality_index : ℚ
  air_quality_risk_score : ℚ
  pm2_5 : ℚ
  no2 : ℚ
  o3 : ℚ
deriving DecidableEq

/-- Result of `AirQualityPredictor.predict` (metadata omitted). -/
structure AirPredictionResult where
  predictions : AirPredictions
  confidence_intervals : ConfidenceInterval
deriving DecidableEq

/-- `AirQualityPredictor.predict`: the AQI is clamped to [0, 500] and the
risk score is `round(predicted_aqi / 500.0, 3)`. -/
def predict (input_data : AirInput) (horizon : ℤ)
    (confidence_level : ℚ) : AirPredictionResult :=
  let traffic_density := input_data.traffic_density.getD 0.5
  let industrial_zones := input_data.industrial_zones.getD 0.2
  let vegetation_cover := input_data.vegetation_cover.getD 0.3
  let wind_speed := input_data.wind_speed.getD 3
  let base_aqi : ℚ := 50
  let traffic_impact := traffic_density * 30
  let industrial_impact := industrial_zones * 40
  let vegetation_benefit := vegetation_cover * 20
  let wind_benefit := min (wind_speed / 5) 1 * 15
  let predicted_aqi₀ := base_aqi + traffic_impact + industrial_impact -
    vegetation_benefit - wind_benefit
  let predicted_aqi := max 0 (min 500 predicted_aqi₀)
  let margin := predicted_aqi * 0.1
  { predictions :=
      { air_quality_index := pyRound predicted_aqi 1
        air_quality_risk_score := pyRound (predicted_aqi / 500) 3
        pm2_5 := pyRound (predicted_aqi * 0.8) 1
        no2 := pyRound (predicted_aqi * 0.6) 1
        o3 := pyRound (predicted_aqi * 0.7) 1 }
    confidence_intervals :=
      { lower_bound := pyRound (predicted_aqi - margin) 1
        upper_bound := pyRound (predicted_aqi + margin) 1
        confidence_level := confidence_level } }

end AirQuality

namespace Environmental

/-- `EnvironmentalPredictor._calculate_overall_risk_score`.  The three
result dictionaries are read only at the keys `heat_risk_score`,
`flood_risk_score` and `air_quality_risk_score`, each with default 0.5,
so each dictionary is modelled by the `Option` value at its key. -/
def calculate_overall_risk_score
    (heat_island_results water_absorption_results air_quality_results :
      Option ℚ) : ℚ :=
  let heat_risk := heat_island_results.getD 0.5
  let water_risk := water_absorption_results.getD 0.5
  let air_risk := air_quality_results.getD 0.5
  pyRound (0.4 * heat_risk + 0.3 * water_risk + 0.3 * air_risk) 3

/-- Recommendation record emitted by the aggregator's catalog. -/
structure Recommendation where
  type : String
  title : String
  description : String
  impact : String
  cost : String
  priority : ℤ
  implementation_time : String
deriving DecidableEq

/-- `EnvironmentalPredictor._generate_heat_island_recommendations`:
reads `heat_risk_score` (default 0.5). -/
def generate_heat_island_recommendations
    (heat_island_results : Option ℚ) : List Recommendation :=
  let heat_risk := heat_island_results.getD 0.5
  if heat_risk > 0.7 then
    [{ type := "green_infrastructure"
       title := "Implement Green Roofs"
       description := "Install green roofs on buildings to reduce heat absorption"
       impact := "High", cost := "Medium", priority := 1
       implementation_time := "6-12 months" },
     { type := "vegetation"
       title := "Increase Tree Canopy"
       description := "Plant trees to provide shade and cooling"
       impact := "High", cost := "Low", priority := 1
       implementation_time := "1-3 years" }]
  else if heat_risk > 0.4 then
    [{ type := "materials"
       title := "Use Reflective Materials"
       description := "Replace dark surfaces with reflective materials"
       impact := "Medium", cost := "Medium", priority := 2
       implementation_time := "3-6 months" }]
  else []

/-- `EnvironmentalPredictor._generate_water_absorption_recommendations`:
reads `flood_risk_score` (default 0.5). -/
def generate_water_absorption_recommendations
    (water_absorption_results : Option ℚ) : List Recommendation :=
  let flood_risk := water_absorption_results.getD 0.5
  if flood_risk > 0.7 then
    [{ type := "infrastructure"
       title := "Install Permeable Pavement"
       description := "Replace impervious surfaces with permeable materials"
       impact := "High", cost := "High", priority := 1
       implementation_time := "6-18 months" },
     { type := "infrastructure"
       title := "Create Rain Gardens"
       description := "Install rain gardens to capture and filter stormwater"
       impact := "High", cost := "Medium", priority := 1
       implementation_time := "3-6 months" }]
  else if flood_risk > 0.4 then
    [{ type := "infrastructure"
       title := "Improve Drainage Systems"
       description := "Upgrade existing drainage infrastructure"
       impact := "Medium", cost := "Medium", priority := 2
       implementation_time := "6-12 months" }]
  else []

/-- `EnvironmentalPredictor._generate_air_quality_recommendations`:
reads `air_quality_risk_score` (default 0.5). -/
def generate_air_quality_recommendations
    (air_quality_results : Option ℚ) : List Recommendation :=
  let air_risk := air_quality_results.getD 0.5
  if air_risk > 0.7 then
    [{ type := "transportation"
       title := "Promote Electric Vehicles"
       description := "Install EV charging stations and promote electric vehicle use"
       impact := "High", cost := "High", priority := 1
       implementation_time := "12-24 months" },
     { type := "vegetation"
       title := "Plant Air-Purifying Vegetation"
       description := "Plant trees and vegetation that filter air pollutants"
       impact := "Medium", cost := "Low", priority := 1
       implementation_time := "1-3 years" }]
  else if air_risk > 0.4 then
    [{ type := "transportation"
       title := "Improve Public Transit"
       description := "Enhance public transportation to reduce vehicle emissions"
       impact := "Medium", cost := "High", priority := 2
       implementation_time := "12-36 months" }]
  else []

/-- Stable insertion into a list kept in descending `priority` order: the
new element goes before the first element whose `priority` is not larger,
so elements with equal priority keep their original relative order. -/
def insert_by_priority (r : Recommendation) :
    List Recommendation → List Recommendation
  | [] => [r]
  | x :: xs =>
    if r.priority < x.priority then x :: insert_by_priority r xs
    else r :: x :: xs

/-- Model of Python's stable `recommendations.sort(key=priority,
reverse=True)`: descending order on the numeric `priority` field, ties
keep their original order. -/
def sort_by_priority_desc : List Recommendation → List Recommendation
  | [] => []
  | x :: xs => insert_by_priority x (sort_by_priority_desc xs)

/-- `EnvironmentalPredictor.generate_recommendations`: concatenate the
per-domain recommendations selected by `analysis_type`, then sort
descending on the numeric `priority` field. -/
def generate_recommendations
    (heat_island_results water_absorption_results air_quality_results :
      Option ℚ) (analysis_type : String) : List Recommendation :=
  let recommendations :=
    (if analysis_type = "heat_island" ∨ analysis_type = "comprehensive" then
      generate_heat_island_recommendations heat_island_results else []) ++
    (if analysis_type = "water_absorption" ∨ analysis_type = "comprehensive" then
      generate_water_absorption_recommendations water_absorption_results
    else []) ++
    (if analysis_type = "air_quality" ∨ analysis_type = "comprehensive" then
      generate_air_quality_recommendations air_quality_results else [])
  sort_by_priority_desc recommendations

end Environmental

namespace UHIAnalyzer

/-- `UrbanHeatIslandAnalyzer._estimate_population`. -/
def estimate_population (area_km2 : ℚ) : ℤ := pyInt (area_km2 * 1000)

/-- One entry of the fixed mitigation-strategy catalog in
`UrbanHeatIslandAnalyzer._assess_mitigation_potential`. -/
structure Strategy where
  temperature_reduction : ℚ
  implementation_cost : ℚ
  maintenance_cost : ℚ
  feasibility : ℚ
deriving DecidableEq

/-- The fixed four-strategy catalog (green roofs, urban forests, cool
pavements, water features), with per-km² costs scaled by the area. -/
def mitigation_strategies (area_km2 : ℚ) : List Strategy :=
  [{ temperature_reduction := 1.5, implementation_cost := area_km2 * 50000
     maintenance_cost := area_km2 * 5000, feasibility := 0.8 },
   { temperature_reduction := 2, implementation_cost := area_km2 * 30000
     maintenance_cost := area_km2 * 3000, feasibility := 0.9 },
   { temperature_reduction := 1, implementation_cost := area_km2 * 40000
     maintenance_cost := area_km2 * 2000, feasibility := 0.7 },
   { temperature_reduction := 0.8, implementation_cost := area_km2 * 60000
     maintenance_cost := area_km2 * 8000, feasibility := 0.6 }]

/-- Sum of the catalog's temperature reductions (`max_reduction`). -/
def max_reduction (area_km2 : ℚ) : ℚ :=
  ((mitigation_strategies area_km2).map Strategy.temperature_reduction).sum

/-- Sum of the catalog's implementation costs. -/
def total_implementation_cost (area_km2 : ℚ) : ℚ :=
  ((mitigation_strategies area_km2).map Strategy.implementation_cost).sum

/-- Sum of the catalog's annual maintenance costs. -/
def total_annual_maintenance (area_km2 : ℚ) : ℚ :=
  ((mitigation_strategies area_km2).map Strategy.maintenance_cost).sum

/-- `UrbanHeatIslandAnalyzer._calculate_mitigation_benefits`: energy,
health and productivity savings scaled by the achievable reduction. -/
def calculate_mitigation_benefits (temp_reduction area_km2 : ℚ) : ℚ :=
  let population := (estimate_population area_km2 : ℚ)
  let energy_savings := population * 12.5 * (temp_reduction * 3.5 / 100) * 120
  let health_savings := population * 0.1 * temp_reduction * 1000
  let productivity_gains := population * 50000 * (temp_reduction * 0.5 / 100)
  energy_savings + health_savings + productivity_gains

/-- Cost-analysis sub-dictionary of `_assess_mitigation_potential`.  The
`payback_period_years` entry is `none` exactly where the source reports
the string `N:A-style` marker for an infinite payback, and `some r` for
the rounded finite value. -/
structure CostAnalysis where
  total_implementation_cost_usd : ℚ
  total_annual_maintenance_usd : ℚ
  annual_benefits_usd : ℚ
  payback_period_years : Option ℚ
deriving DecidableEq

/-- Result of `_assess_mitigation_potential` (strategy table, priority
string and timeline string omitted; they carry no numeric content). -/
structure MitigationAssessment where
  achievable_temperature_reduction : ℚ
  cost_analysis : CostAnalysis
deriving DecidableEq

/-- `UrbanHeatIslandAnalyzer._assess_mitigation_potential`, taking the
`temperature_difference` entry of the UHI-intensity dictionary as an
explicit argument.  `payback_period` is `cost / (benefits - maintenance)`
when the denominator is positive and infinite otherwise; the infinite
case is reported as `none` (the source's string marker). -/
def assess_mitigation_potential (coordinates : List (ℚ × ℚ))
    (temp_difference : ℚ) : MitigationAssessment :=
  let area_km2 := calculate_area coordinates
  let achievable_reduction :=
    min (max_reduction area_km2) (temp_difference * 0.8)
  let implementation_cost := total_implementation_cost area_km2
  let annual_maintenance := total_annual_maintenance area_km2
  let annual_benefits :=
    calculate_mitigation_benefits achievable_reduction area_km2
  let payback_period : Option ℚ :=
    if annual_benefits - annual_maintenance > 0 then
      some (implementation_cost / (annual_benefits - annual_maintenance))
    else none
  { achievable_temperature_reduction := pyRound achievable_reduction 2
    cost_analysis :=
      { total_implementation_cost_usd := pyRound implementation_cost 2
        total_annual_maintenance_usd := pyRound annual_maintenance 2
        annual_benefits_usd := pyRound annual_benefits 2
        payback_period_years := payback_period.map (fun p => pyRound p 1) } }

end UHIAnalyzer

/-! Helper lemmas about the Python rounding model. -/

theorem le_pyRoundInt {k : ℤ} {q : ℚ} (h : (k : ℚ) ≤ q) : k ≤ pyRoundInt q := by
  have hf : k ≤ ⌊q⌋ := Int.le_floor.mpr h
  unfold pyRoundInt
  split_ifs <;> omega

theorem pyRoundInt_le {k : ℤ} {q : ℚ} (h : q ≤ (k : ℚ)) : pyRoundInt q ≤ k := by
  have hf : ⌊q⌋ ≤ k := by
    have := Int.floor_le_floor (α := ℚ) h
    simpa using this
  have hfl : (⌊q⌋ : ℚ) ≤ q := Int.floor_le q
  unfold pyRoundInt
  split_ifs with h1 h2 h3
  · exact hf
  · have hlt : (⌊q⌋ : ℚ) < (k : ℚ) := by linarith
    have : ⌊q⌋ < k := by exact_mod_cast hlt
    omega
  · exact hf
  · have hge : (1 : ℚ) / 2 ≤ q - ⌊q⌋ := le_of_not_lt h1
    have hlt : (⌊q⌋ : ℚ) < (k : ℚ) := by linarith
    have : ⌊q⌋ < k := by exact_mod_cast hlt
    omega

theorem abs_pyRoundInt_sub (q : ℚ) : |(pyRoundInt q : ℚ) - q| ≤ 1 / 2 := by
  have hfl : (⌊q⌋ : ℚ) ≤ q := Int.floor_le q
  have hfu : q < (⌊q⌋ : ℚ) + 1 := Int.lt_floor_add_one q
  unfold pyRoundInt
  split_ifs with h1 h2 h3 <;>
    · rw [abs_le]
      constructor <;> (push_cast; linarith)

theorem one_le_pyRoundInt {q : ℚ} (h : 1 / 2 < q) : 1 ≤ pyRoundInt q := by
  have hf0 : 0 ≤ ⌊q⌋ := Int.floor_nonneg.mpr (by linarith)
  unfold pyRoundInt
  split_ifs with h1 h2 h3
  · by_contra hc
    push_neg at hc
    have hz : ⌊q⌋ = 0 := by omega
    rw [hz] at h1
    push_cast at h1
    linarith
  · omega
  · by_contra hc
    push_neg at hc
    have hz : ⌊q⌋ = 0 := by omega
    have hge : (1 : ℚ) / 2 ≤ q - ⌊q⌋ := le_of_not_lt h1
    have hle : q - ⌊q⌋ ≤ 1 / 2 := le_of_not_lt h2
    rw [hz] at hge hle
    push_cast at hge hle
    linarith
  · omega

theorem le_pyRound {k : ℤ} {q : ℚ} (n : ℕ) (h : (k : ℚ) / 10 ^ n ≤ q) :
    (k : ℚ) / 10 ^ n ≤ pyRound q n := by
  have h10 : (0 : ℚ) < 10 ^ n := by positivity
  have hk : (k : ℚ) ≤ q * 10 ^ n := by
    rw [div_le_iff₀ h10] at h
    exact h
  have hle := le_pyRoundInt hk
  have hc : (k : ℚ) ≤ (pyRoundInt (q * 10 ^ n) : ℚ) := by exact_mod_cast hle
  unfold pyRound
  exact (div_le_div_iff_of_pos_right h10).mpr hc

theorem pyRound_le {k : ℤ} {q : ℚ} (n : ℕ) (h : q ≤ (k : ℚ) / 10 ^ n) :
    pyRound q n ≤ (k : ℚ) / 10 ^ n := by
  have h10 : (0 : ℚ) < 10 ^ n := by positivity
  have hk : q * 10 ^ n ≤ (k : ℚ) := by
    rw [le_div_iff₀ h10] at h
    exact h
  have hle := pyRoundInt_le hk
  have hc : (pyRoundInt (q * 10 ^ n) : ℚ) ≤ (k : ℚ) := by exact_mod_cast hle
  unfold pyRound
  exact (div_le_div_iff_of_pos_right h10).mpr hc

theorem pyRound_nonneg {q : ℚ} (n : ℕ) (h : 0 ≤ q) : 0 ≤ pyRound q n := by
  have := le_pyRound (k := 0) (q := q) n (by simpa using h)
  simpa using this

theorem pyRound_le_one {q : ℚ} (n : ℕ) (h : q ≤ 1) : pyRound q n ≤ 1 := by
  have h10 : (0 : ℚ) < 10 ^ n := by positivity
  have := pyRound_le (k := 10 ^ n) (q := q) n
    (by push_cast; rw [div_self (ne_of_gt h10)]; exact h)
  rw [show ((10 ^ n : ℤ) : ℚ) = 10 ^ n by push_cast; ring] at this
  rw [div_self (ne_of_gt h10)] at this
  exact this

theorem pyRound_nonpos {q : ℚ} (n : ℕ) (h : q ≤ 0) : pyRound q n ≤ 0 := by
  have := pyRound_le (k := 0) (q := q) n (by simpa using h)
  simpa using this

theorem abs_pyRound_sub (q : ℚ) (n : ℕ) :
    |pyRound q n - q| ≤ 1 / (2 * 10 ^ n) := by
  have h10 : (0 : ℚ) < 10 ^ n := by positivity
  have key := abs_pyRoundInt_sub (q * 10 ^ n)
  unfold pyRound
  have heq : (pyRoundInt (q * 10 ^ n) : ℚ) / 10 ^ n - q =
      ((pyRoundInt (q * 10 ^ n) : ℚ) - q * 10 ^ n) / 10 ^ n := by
    field_simp
    ring
  rw [heq, abs_div, abs_of_pos h10, div_le_div_iff₀ h10 (by positivity)]
  nlinarith [key, h10]

theorem one_div_ten_le_pyRound {q : ℚ} (h : 1 / 20 < q) :
    1 / 10 ≤ pyRound q 1 := by
  have h2 : 1 / 2 < q * 10 ^ 1 := by
    norm_num
    linarith
  have h1 := one_le_pyRoundInt h2
  have hc : (1 : ℚ) ≤ (pyRoundInt (q * 10 ^ 1) : ℚ) := by exact_mod_cast h1
  unfold pyRound
  rw [le_div_iff₀ (by norm_num : (0:ℚ) < 10 ^ 1)]
  norm_num at hc ⊢
  linarith

theorem calculate_area_nonneg (coordinates : List (ℚ × ℚ)) :
    0 ≤ calculate_area coordinates := by
  unfold calculate_area
  positivity

/-! Helper lemmas about the individual risk formulas. -/

theorem area_factor_nonneg {a : ℚ} (ha : 0 ≤ a) : 0 ≤ min (a / 10) 2 :=
  le_min (by positivity) (by norm_num)

theorem heat_risk_score_bounds {t a : ℚ} (ht : 0 ≤ t) (ha : 0 ≤ a) :
    0 ≤ HeatIsland.calculate_heat_risk_score t a ∧
      HeatIsland.calculate_heat_risk_score t a ≤ 1 := by
  simp only [HeatIsland.calculate_heat_risk_score]
  have h1 : 0 ≤ min (t / 5) 1 := le_min (by positivity) (by norm_num)
  have h2 : min (t / 5) 1 ≤ 1 := min_le_right _ _
  have h3 : 0 ≤ min (a / 100) 1 := le_min (by positivity) (by norm_num)
  have h4 : min (a / 100) 1 ≤ 1 := min_le_right _ _
  constructor <;> nlinarith

theorem heat_increase_nonneg {a : ℚ} (coordinates : List (ℚ × ℚ)) {th : ℤ}
    (ha : 0 ≤ a) (hth : 0 ≤ th) :
    0 ≤ HeatIsland.predict_temperature_increase coordinates a th := by
  simp only [HeatIsland.predict_temperature_increase]
  have h1 := area_factor_nonneg ha
  have h2 : (0 : ℚ) ≤ (th : ℚ) / 10 := by positivity
  nlinarith

theorem air_risk_score_bounds (aqi : ℚ) :
    0 ≤ AirQuality.calculate_air_quality_risk_score aqi ∧
      AirQuality.calculate_air_quality_risk_score aqi ≤ 1 := by
  simp only [AirQuality.calculate_air_quality_risk_score]
  split_ifs with h1 h2 h3 h4
  · norm_num
  · constructor <;> · push_neg at h1; linarith
  · constructor <;> · push_neg at h2; linarith
  · constructor <;> · push_neg at h3; linarith
  · push_neg at h4
    have hm0 : 0 ≤ min ((aqi - 200) / 300) 1 :=
      le_min (by linarith) (by norm_num)
    have hm1 : min ((aqi - 200) / 300) 1 ≤ 1 := min_le_right _ _
    constructor <;> nlinarith

theorem water_change_nonpos (coordinates : List (ℚ × ℚ)) {a : ℚ} {th : ℤ}
    (ha : 0 ≤ a) (hth : 0 ≤ th) :
    WaterAbsorption.predict_absorption_change coordinates a th ≤ 0 := by
  simp only [WaterAbsorption.predict_absorption_change]
  have h1 := area_factor_nonneg ha
  have h2 : (0 : ℚ) ≤ (th : ℚ) / 10 := by positivity
  nlinarith

theorem flood_risk_score_bounds {r a : ℚ} (hr0 : 0 ≤ r) (hr6 : r ≤ 0.6)
    (ha : 0 ≤ a) :
    0.32 ≤ WaterAbsorption.calculate_flood_risk_score r a ∧
      WaterAbsorption.calculate_flood_risk_score r a ≤ 1 := by
  simp only [WaterAbsorption.calculate_flood_risk_score]
  have h3 : 0 ≤ min (a / 100) 1 := le_min (by positivity) (by norm_num)
  have h4 : min (a / 100) 1 ≤ 1 := min_le_right _ _
  constructor <;> nlinarith

theorem water_risk_level_ne_very_low {s : ℚ} (h : 0.2 ≤ s) :
    WaterAbsorption.determine_risk_level s ≠ "Very Low" := by
  simp only [WaterAbsorption.determine_risk_level]
  split_ifs with h1 h2 h3
  · decide
  · decide
  · decide
  · decide

/-! Helper lemmas about the stable priority sort of the recommender. -/

theorem mem_insert_by_priority {r x : Environmental.Recommendation}
    {l : List Environmental.Recommendation}
    (h : x ∈ Environmental.insert_by_priority r l) : x = r ∨ x ∈ l := by
  induction l with
  | nil => simpa [Environmental.insert_by_priority] using h
  | cons y ys ih =>
    unfold Environmental.insert_by_priority at h
    split_ifs at h with hc
    · rcases List.mem_cons.mp h with h1 | h2
      · exact Or.inr (List.mem_cons.mpr (Or.inl h1))
      · rcases ih h2 with h3 | h4
        · exact Or.inl h3
        · exact Or.inr (List.mem_cons.mpr (Or.inr h4))
    · rcases List.mem_cons.mp h with h1 | h2
      · exact Or.inl h1
      · exact Or.inr h2

theorem pairwise_insert_by_priority {r : Environmental.Recommendation}
    {l : List Environmental.Recommendation}
    (hl : l.Pairwise (fun x y => y.priority ≤ x.priority)) :
    (Environmental.insert_by_priority r l).Pairwise
      (fun x y => y.priority ≤ x.priority) := by
  induction l with
  | nil => simp [Environmental.insert_by_priority]
  | cons x xs ih =>
    rcases List.pairwise_cons.mp hl with ⟨hx, hxs⟩
    unfold Environmental.insert_by_priority
    split_ifs with hc
    · refine List.pairwise_cons.mpr ⟨?_, ih hxs⟩
      intro z hz
      rcases mem_insert_by_priority hz with rfl | hzin
      · exact le_of_lt hc
      · exact hx z hzin
    · refine List.pairwise_cons.mpr ⟨?_, hl⟩
      intro z hz
      rcases List.mem_cons.mp hz with rfl | hzin
      · exact le_of_not_lt hc
      · exact le_trans (hx z hzin) (le_of_not_lt hc)

theorem pairwise_sort_by_priority_desc (l : List Environmental.Recommendation) :
    (Environmental.sort_by_priority_desc l).Pairwise
      (fun x y => y.priority ≤ x.priority) := by
  induction l with
  | nil => simp [Environmental.sort_by_priority_desc]
  | cons x xs ih =>
    unfold Environmental.sort_by_priority_desc
    exact pairwise_insert_by_priority ih

/-! Helper lemmas about the UHI mitigation cost model. -/

theorem max_reduction_eq (a : ℚ) : UHIAnalyzer.max_reduction a = 5.3 := by
  norm_num [UHIAnalyzer.max_reduction, UHIAnalyzer.mitigation_strategies]

theorem total_annual_maintenance_eq (a : ℚ) :
    UHIAnalyzer.total_annual_maintenance a = a * 18000 := by
  simp [UHIAnalyzer.total_annual_maintenance, UHIAnalyzer.mitigation_strategies]
  ring

theorem total_implementation_cost_eq (a : ℚ) :
    UHIAnalyzer.total_implementation_cost a = a * 180000 := by
  simp [UHIAnalyzer.total_implementation_cost, UHIAnalyzer.mitigation_strategies]
  ring

theorem calculate_mitigation_benefits_eq (r a : ℚ) (ha : 0 ≤ a) :
    UHIAnalyzer.calculate_mitigation_benefits r a =
      (⌊a * 1000⌋ : ℚ) * r * 402.5 := by
  have hpop : UHIAnalyzer.estimate_population a = ⌊a * 1000⌋ := by
    unfold UHIAnalyzer.estimate_population pyInt
    rw [if_pos (by positivity : (0 : ℚ) ≤ a * 1000)]
  simp only [UHIAnalyzer.calculate_mitigation_benefits, hpop]
  ring

/-- When the payback denominator is positive, the reported (rounded)
payback period is strictly positive. -/
theorem payback_round_pos {a td : ℚ} (ha : 0 ≤ a)
    (hD : 0 < UHIAnalyzer.calculate_mitigation_benefits
        (min (UHIAnalyzer.max_reduction a) (td * 0.8)) a -
      UHIAnalyzer.total_annual_maintenance a) :
    0 < pyRound (UHIAnalyzer.total_implementation_cost a /
      (UHIAnalyzer.calculate_mitigation_benefits
          (min (UHIAnalyzer.max_reduction a) (td * 0.8)) a -
        UHIAnalyzer.total_annual_maintenance a)) 1 := by
  rw [calculate_mitigation_benefits_eq _ _ ha, total_annual_maintenance_eq,
    total_implementation_cost_eq, max_reduction_eq] at *
  set r := min (5.3 : ℚ) (td * 0.8) with hrdef
  have hr53 : r ≤ 5.3 := min_le_left _ _
  have hP0 : (0 : ℚ) ≤ (⌊a * 1000⌋ : ℚ) := by
    exact_mod_cast Int.floor_nonneg.mpr (by positivity : (0 : ℚ) ≤ a * 1000)
  have hPr : 0 < (⌊a * 1000⌋ : ℚ) * r := by nlinarith
  have hPpos : (0 : ℚ) < (⌊a * 1000⌋ : ℚ) := by
    rcases hP0.lt_or_eq with h | h
    · exact h
    · exfalso
      rw [← h] at hPr
      simp at hPr
  have hr0 : 0 < r := by
    by_contra h'
    push_neg at h'
    nlinarith
  have hP1 : (1 : ℚ) ≤ (⌊a * 1000⌋ : ℚ) := by
    have h1 : (0 : ℤ) < ⌊a * 1000⌋ := by exact_mod_cast hPpos
    have h2 : (1 : ℤ) ≤ ⌊a * 1000⌋ := h1
    exact_mod_cast h2
  have ha1000 : (1 : ℚ) ≤ a * 1000 := by
    have h2 : (1 : ℤ) ≤ ⌊a * 1000⌋ := by exact_mod_cast hP1
    have := Int.le_floor.mp h2
    simpa using this
  have haPos : 0 < a := by linarith
  have hPle : (⌊a * 1000⌋ : ℚ) ≤ a * 1000 := Int.floor_le (a * 1000)
  have t1 : (⌊a * 1000⌋ : ℚ) * r ≤ a * 1000 * r :=
    mul_le_mul_of_nonneg_right hPle hr0.le
  have t2 : a * 1000 * r ≤ a * 1000 * 5.3 :=
    mul_le_mul_of_nonneg_left hr53 (by positivity)
  have hDle : (⌊a * 1000⌋ : ℚ) * r * 402.5 - a * 18000 ≤ a * 2133250 := by
    nlinarith
  have hfrac : 1 / 20 <
      a * 180000 / ((⌊a * 1000⌋ : ℚ) * r * 402.5 - a * 18000) := by
    rw [lt_div_iff₀ hD]
    nlinarith
  have hfin := one_div_ten_le_pyRound hfrac
  linarith

/-! Claim theorems. -/

/-- Claim C1: for all per-domain risk scores in [0, 1], the aggregator's
overall risk score equals `0.4*heat + 0.3*water + 0.3*air` up to the
documented rounding to 3 decimals (tolerance 1/2000). -/
theorem C1_overall_risk_weighted_sum (h w a : ℚ)
    (hh0 : 0 ≤ h) (hh1 : h ≤ 1) (hw0 : 0 ≤ w) (hw1 : w ≤ 1)
    (ha0 : 0 ≤ a) (ha1 : a ≤ 1) :
    |Environmental.calculate_overall_risk_score (some h) (some w) (some a) -
      (0.4 * h + 0.3 * w + 0.3 * a)| ≤ 1 / 2000 := by
  have key := abs_pyRound_sub (0.4 * h + 0.3 * w + 0.3 * a) 3
  have h2 : (1 : ℚ) / (2 * 10 ^ 3) = 1 / 2000 := by norm_num
  rw [h2] at key
  simpa [Environmental.calculate_overall_risk_score] using key

/-- Witness for C1 at heat = water = air = 0.5. -/
theorem C1_witness :
    (0 : ℚ) ≤ 0.5 ∧
      |Environmental.calculate_overall_risk_score (some 0.5) (some 0.5)
        (some 0.5) - (0.4 * 0.5 + 0.3 * 0.5 + 0.3 * 0.5)| ≤ 1 / 2000 :=
  ⟨by norm_num,
    C1_overall_risk_weighted_sum 0.5 0.5 0.5 (by norm_num) (by norm_num)
      (by norm_num) (by norm_num) (by norm_num) (by norm_num)⟩

/-- Claim C9: a missing risk-score key in any of the three per-domain
result dictionaries behaves exactly like the default value 0.5, and the
aggregator still returns a numeric combined score (0.5 when all three
keys are missing); no error path exists. -/
theorem C9_missing_key_defaults :
    (∀ w a : Option ℚ, Environmental.calculate_overall_risk_score none w a =
      Environmental.calculate_overall_risk_score (some 0.5) w a) ∧
    (∀ h a : Option ℚ, Environmental.calculate_overall_risk_score h none a =
      Environmental.calculate_overall_risk_score h (some 0.5) a) ∧
    (∀ h w : Option ℚ, Environmental.calculate_overall_risk_score h w none =
      Environmental.calculate_overall_risk_score h w (some 0.5)) ∧
    Environmental.calculate_overall_risk_score none none none = 0.5 := by
  refine ⟨fun w a => rfl, fun h a => rfl, fun h w => rfl, ?_⟩
  norm_num [Environmental.calculate_overall_risk_score, pyRound, pyRoundInt]

/-- Claim C3: the three predictors share one risk-level bucketing with
thresholds 0.8 / 0.6 / 0.4 / 0.2, and the bucketing is monotone
non-decreasing in the risk score. -/
theorem C3_risk_level_bucketing :
    (∀ s : ℚ,
      WaterAbsorption.determine_risk_level s = HeatIsland.determine_risk_level s ∧
      AirQuality.determine_risk_level s = HeatIsland.determine_risk_level s) ∧
    (∀ s : ℚ, HeatIsland.determine_risk_level s =
      if 0.8 ≤ s then "Very High"
      else if 0.6 ≤ s then "High"
      else if 0.4 ≤ s then "Medium"
      else if 0.2 ≤ s then "Low"
      else "Very Low") ∧
    (∀ s t : ℚ, s ≤ t →
      levelRank (HeatIsland.determine_risk_level s) ≤
        levelRank (HeatIsland.determine_risk_level t)) := by
  refine ⟨fun s => ⟨rfl, rfl⟩, fun s => rfl, ?_⟩
  intro s t hst
  have hr : ∀ u : ℚ, levelRank (HeatIsland.determine_risk_level u) =
      if 0.8 ≤ u then 4 else if 0.6 ≤ u then 3 else if 0.4 ≤ u then 2
      else if 0.2 ≤ u then 1 else 0 := by
    intro u
    unfold HeatIsland.determine_risk_level
    split_ifs <;> rfl
  rw [hr s, hr t]
  split_ifs
  all_goals try norm_num
  all_goals linarith

/-- Witness for C3 at the pair (0.1, 0.9). -/
theorem C3_witness :
    (0.1 : ℚ) ≤ 0.9 ∧
      levelRank (HeatIsland.determine_risk_level 0.1) ≤
        levelRank (HeatIsland.determine_risk_level 0.9) :=
  ⟨by norm_num, C3_risk_level_bucketing.2.2 0.1 0.9 (by norm_num)⟩

/-- Claim C4 (amended): the recommendation list is sorted in descending
order of the numeric `priority` field.  High-severity recommendations
carry priority 1 and medium-severity ones carry priority 2, so every
medium-priority record precedes every high-priority record. -/
theorem C4_recommendations_priority_order
    (heat water air : Option ℚ) (analysis_type : String) :
    (Environmental.generate_recommendations heat water air
      analysis_type).Pairwise (fun x y => y.priority ≤ x.priority) := by
  unfold Environmental.generate_recommendations
  exact pairwise_sort_by_priority_desc _

/-- Counterexample to C4 as stated: with heat risk 0.8 (two records of
priority 1, emitted for risk above 0.7), flood risk 0.5 (one record of
priority 2, emitted for risk above 0.4) and air risk 0.2 (no record),
the returned priority sequence is [2, 1, 1]: the medium-priority record
comes first, so not every high-priority record precedes every
medium-priority one. -/
theorem C4_counterexample :
    (Environmental.generate_recommendations (some 0.8) (some 0.5)
      (some 0.2) "comprehensive").map Environmental.Recommendation.priority =
      [2, 1, 1] := by
  norm_num [Environmental.generate_recommendations,
    Environmental.generate_heat_island_recommendations,
    Environmental.generate_water_absorption_recommendations,
    Environmental.generate_air_quality_recommendations,
    Environmental.sort_by_priority_desc, Environmental.insert_by_priority]

/-- Claim C2 (amended): on the polygon-analysis paths the heat, flood and
air risk scores lie in [0, 1] for every polygon and nonnegative time
horizon, and the air predict path clamps its AQI so its risk score lies
in [0, 1] for every feature bag; the heat and water predict paths apply
no clamping and can leave [0, 1]. -/
theorem C2_risk_scores_in_unit_interval :
    (∀ (coordinates : List (ℚ × ℚ)) (time_horizon : ℤ) (now : String),
      0 ≤ time_horizon →
      (0 ≤ (HeatIsland.analyze_heat_island_effect coordinates time_horizon
          now).heat_risk_score ∧
        (HeatIsland.analyze_heat_island_effect coordinates time_horizon
          now).heat_risk_score ≤ 1) ∧
      (0 ≤ (WaterAbsorption.analyze_water_absorption coordinates
          time_horizon now).flood_risk_score ∧
        (WaterAbsorption.analyze_water_absorption coordinates time_horizon
          now).flood_risk_score ≤ 1) ∧
      (0 ≤ (AirQuality.analyze_air_quality_impact coordinates time_horizon
          now).air_quality_risk_score ∧
        (AirQuality.analyze_air_quality_impact coordinates time_horizon
          now).air_quality_risk_score ≤ 1)) ∧
    (∀ (input_data : AirQuality.AirInput) (horizon : ℤ)
      (confidence_level : ℚ),
      0 ≤ (AirQuality.predict input_data horizon
          confidence_level).predictions.air_quality_risk_score ∧
      (AirQuality.predict input_data horizon
          confidence_level).predictions.air_quality_risk_score ≤ 1) := by
  constructor
  · intro coordinates th now hth
    have ha0 := calculate_area_nonneg coordinates
    refine ⟨?_, ?_, ?_⟩
    · simp only [HeatIsland.analyze_heat_island_effect]
      have ht := heat_increase_nonneg (a := calculate_area coordinates)
        coordinates ha0 hth
      obtain ⟨hb0, hb1⟩ := heat_risk_score_bounds ht ha0
      exact ⟨pyRound_nonneg 3 hb0, pyRound_le_one 3 hb1⟩
    · simp only [WaterAbsorption.analyze_water_absorption]
      have hch := water_change_nonpos coordinates ha0 hth
      have hr0 : (0 : ℚ) ≤ max 0 (0.6 +
          WaterAbsorption.predict_absorption_change coordinates
            (calculate_area coordinates) th) := le_max_left _ _
      have hr6 : max 0 (0.6 +
          WaterAbsorption.predict_absorption_change coordinates
            (calculate_area coordinates) th) ≤ 0.6 :=
        max_le (by norm_num) (by linarith)
      obtain ⟨hf0, hf1⟩ := flood_risk_score_bounds hr0 hr6 ha0
      exact ⟨pyRound_nonneg 3 (by linarith), pyRound_le_one 3 hf1⟩
    · simp only [AirQuality.analyze_air_quality_impact]
      obtain ⟨h0, h1⟩ := air_risk_score_bounds
        (max 0 (min 500 (75 + AirQuality.predict_aqi_change
          coordinates (calculate_area coordinates) th)))
      exact ⟨pyRound_nonneg 3 h0, pyRound_le_one 3 h1⟩
  · intro input_data horizon confidence_level
    simp only [AirQuality.predict]
    constructor
    · exact pyRound_nonneg 3 (div_nonneg (le_max_left _ _) (by norm_num))
    · refine pyRound_le_one 3 ?_
      rw [div_le_one (by norm_num)]
      exact max_le (by norm_num) (min_le_left _ _)

/-- Counterexample to C2 as stated: the heat predict path applies no
clamping, so with an empty feature bag (all defaults) and horizon 20 the
returned heat risk score is 1.1, outside [0, 1]. -/
theorem C2_counterexample :
    1 < (HeatIsland.predict {} 20 0.95).predictions.heat_risk_score := by
  norm_num [HeatIsland.predict, pyRound, pyRoundInt, Option.getD_none]

/-- Witness for C2 at a concrete triangle and horizon 10. -/
theorem C2_witness :
    (0 : ℤ) ≤ 10 ∧
      (0 ≤ (HeatIsland.analyze_heat_island_effect
          [((0 : ℚ), (0 : ℚ)), (1, 0), (0, 1)] 10 "t").heat_risk_score ∧
        (HeatIsland.analyze_heat_island_effect
          [((0 : ℚ), (0 : ℚ)), (1, 0), (0, 1)] 10 "t").heat_risk_score ≤ 1) :=
  ⟨by norm_num,
    (C2_risk_scores_in_unit_interval.1 _ 10 "t" (by norm_num)).1⟩

/-- Claim C5: the reported `payback_period_years` is the N/A marker
(`none`) exactly when the annual benefit is at most the total annual
maintenance; otherwise it equals the implementation cost divided by
(benefit minus maintenance), rounded to 1 decimal, and is strictly
positive. -/
theorem C5_payback_period (coordinates : List (ℚ × ℚ))
    (temp_difference : ℚ) :
    ((UHIAnalyzer.assess_mitigation_potential coordinates
        temp_difference).cost_analysis.payback_period_years = none ↔
      UHIAnalyzer.calculate_mitigation_benefits
          (min (UHIAnalyzer.max_reduction (calculate_area coordinates))
            (temp_difference * 0.8)) (calculate_area coordinates) ≤
        UHIAnalyzer.total_annual_maintenance (calculate_area coordinates)) ∧
    (0 < UHIAnalyzer.calculate_mitigation_benefits
          (min (UHIAnalyzer.max_reduction (calculate_area coordinates))
            (temp_difference * 0.8)) (calculate_area coordinates) -
        UHIAnalyzer.total_annual_maintenance (calculate_area coordinates) →
      (UHIAnalyzer.assess_mitigation_potential coordinates
          temp_difference).cost_analysis.payback_period_years =
        some (pyRound
          (UHIAnalyzer.total_implementation_cost (calculate_area coordinates) /
            (UHIAnalyzer.calculate_mitigation_benefits
                (min (UHIAnalyzer.max_reduction (calculate_area coordinates))
                  (temp_difference * 0.8)) (calculate_area coordinates) -
              UHIAnalyzer.total_annual_maintenance
                (calculate_area coordinates))) 1) ∧
      0 < pyRound
          (UHIAnalyzer.total_implementation_cost (calculate_area coordinates) /
            (UHIAnalyzer.calculate_mitigation_benefits
                (min (UHIAnalyzer.max_reduction (calculate_area coordinates))
                  (temp_difference * 0.8)) (calculate_area coordinates) -
              UHIAnalyzer.total_annual_maintenance
                (calculate_area coordinates))) 1) := by
  have ha0 := calculate_area_nonneg coordinates
  simp only [UHIAnalyzer.assess_mitigation_potential]
  by_cases hpos :
      UHIAnalyzer.calculate_mitigation_benefits
          (min (UHIAnalyzer.max_reduction (calculate_area coordinates))
            (temp_difference * 0.8)) (calculate_area coordinates) -
        UHIAnalyzer.total_annual_maintenance (calculate_area coordinates) > 0
  · rw [if_pos hpos]
    constructor
    · simp only [Option.map_some']
      constructor
      · intro hnone
        exact (Option.some_ne_none _ hnone).elim
      · intro hle
        linarith
    · intro hD
      simp only [Option.map_some']
      exact ⟨trivial, payback_round_pos ha0 hD⟩
  · rw [if_neg hpos]
    push_neg at hpos
    constructor
    · simp only [Option.map_none']
      exact ⟨fun _ => by linarith, fun _ => trivial⟩
    · intro hD
      linarith

/-- Witness for C5 at the triangle (0,0)-(1,0)-(0,1) and a temperature
difference of 10 degrees: the benefit exceeds the maintenance, so the
reported payback period is the positive rounded quotient. -/
theorem C5_witness :
    0 < UHIAnalyzer.calculate_mitigation_benefits
        (min (UHIAnalyzer.max_reduction
            (calculate_area [((0 : ℚ), (0 : ℚ)), (1, 0), (0, 1)]))
          ((10 : ℚ) * 0.8))
        (calculate_area [((0 : ℚ), (0 : ℚ)), (1, 0), (0, 1)]) -
      UHIAnalyzer.total_annual_maintenance
        (calculate_area [((0 : ℚ), (0 : ℚ)), (1, 0), (0, 1)]) ∧
    0 < pyRound
        (UHIAnalyzer.total_implementation_cost
            (calculate_area [((0 : ℚ), (0 : ℚ)), (1, 0), (0, 1)]) /
          (UHIAnalyzer.calculate_mitigation_benefits
              (min (UHIAnalyzer.max_reduction
                  (calculate_area [((0 : ℚ), (0 : ℚ)), (1, 0), (0, 1)]))
                ((10 : ℚ) * 0.8))
              (calculate_area [((0 : ℚ), (0 : ℚ)), (1, 0), (0, 1)]) -
            UHIAnalyzer.total_annual_maintenance
              (calculate_area [((0 : ℚ), (0 : ℚ)), (1, 0), (0, 1)]))) 1 := by
  have harea : calculate_area [((0 : ℚ), (0 : ℚ)), (1, 0), (0, 1)] =
      7745089 / 1250 := by
    norm_num [calculate_area, shoelaceSum, List.range_succ]
  have hD : 0 < UHIAnalyzer.calculate_mitigation_benefits
      (min (UHIAnalyzer.max_reduction
          (calculate_area [((0 : ℚ), (0 : ℚ)), (1, 0), (0, 1)]))
        ((10 : ℚ) * 0.8))
      (calculate_area [((0 : ℚ), (0 : ℚ)), (1, 0), (0, 1)]) -
      UHIAnalyzer.total_annual_maintenance
        (calculate_area [((0 : ℚ), (0 : ℚ)), (1, 0), (0, 1)]) := by
    rw [harea, max_reduction_eq, total_annual_maintenance_eq,
      calculate_mitigation_benefits_eq _ _ (by norm_num)]
    norm_num [min_def]
  exact ⟨hD, ((C5_payback_period _ 10).2 hD).2⟩

/-- Claim C6 (amended): `validate_coordinates` accepts exactly the
polygons with at least 3 vertices all inside the lon/lat ranges; it is
the only malformed-input detection, returns a plain boolean, and the
predictors' `_calculate_area` performs no such check. -/
theorem C6_validate_coordinates_characterization
    (coordinates : List (ℚ × ℚ)) :
    validate_coordinates coordinates = true ↔
      (3 ≤ coordinates.length ∧ ∀ c ∈ coordinates,
        -180 ≤ c.1 ∧ c.1 ≤ 180 ∧ -90 ≤ c.2 ∧ c.2 ≤ 90) := by
  unfold validate_coordinates
  split_ifs with hlen
  · simp only [Bool.false_eq_true, false_iff]
    intro hcon
    omega
  · rw [List.all_eq_true]
    constructor
    · intro hall
      refine ⟨by omega, fun c hc => ?_⟩
      have hx := hall c hc
      simp only [Bool.and_eq_true, decide_eq_true_eq] at hx
      exact ⟨hx.1.1.1, hx.1.1.2, hx.1.2, hx.2⟩
    · rintro ⟨-, hall⟩ c hc
      have hx := hall c hc
      simp only [Bool.and_eq_true, decide_eq_true_eq]
      exact ⟨⟨⟨hx.1, hx.2.1⟩, hx.2.2.1⟩, hx.2.2.2⟩

/-- Counterexample to C6 as stated: `_calculate_area` raises no error on
malformed input.  A 2-point polygon is flagged by the validator, yet the
area computation still runs and returns the number 0; a polygon with
longitudes outside [-180, 180] is flagged too, yet the area computation
returns a positive number. -/
theorem C6_counterexample :
    validate_coordinates [((0 : ℚ), (0 : ℚ)), (1, 1)] = false ∧
    calculate_area [((0 : ℚ), (0 : ℚ)), (1, 1)] = 0 ∧
    validate_coordinates [((200 : ℚ), (0 : ℚ)), (201, 0), (201, 1)] = false ∧
    0 < calculate_area [((200 : ℚ), (0 : ℚ)), (201, 0), (201, 1)] := by
  refine ⟨by norm_num [validate_coordinates], ?_, ?_, ?_⟩
  · norm_num [calculate_area, shoelaceSum, List.range_succ]
  · norm_num [validate_coordinates]
  · norm_num [calculate_area, shoelaceSum, List.range_succ]

/-- Witness for C6 at a valid triangle. -/
theorem C6_witness :
    validate_coordinates [((0 : ℚ), (0 : ℚ)), (1, 0), (0, 1)] = true :=
  (C6_validate_coordinates_characterization _).mpr
    ⟨by norm_num, by
      intro c hc
      fin_cases hc <;> norm_num⟩

/-- Claim C7: for a fixed polygon, increasing the time horizon never
decreases the magnitude of the predicted change in any domain: the
temperature increase, the absorption-rate decrease, and the AQI
increase. -/
theorem C7_change_magnitude_monotone (coordinates : List (ℚ × ℚ))
    (h1 h2 : ℤ) (hh0 : 0 ≤ h1) (hh12 : h1 ≤ h2) :
    |HeatIsland.predict_temperature_increase coordinates
        (calculate_area coordinates) h1| ≤
      |HeatIsland.predict_temperature_increase coordinates
        (calculate_area coordinates) h2| ∧
    |WaterAbsorption.predict_absorption_change coordinates
        (calculate_area coordinates) h1| ≤
      |WaterAbsorption.predict_absorption_change coordinates
        (calculate_area coordinates) h2| ∧
    |AirQuality.predict_aqi_change coordinates
        (calculate_area coordinates) h1| ≤
      |AirQuality.predict_aqi_change coordinates
        (calculate_area coordinates) h2| := by
  have ha0 := calculate_area_nonneg coordinates
  have haf := area_factor_nonneg ha0
  have hc1 : (0 : ℚ) ≤ (h1 : ℚ) := by exact_mod_cast hh0
  have hc2 : (0 : ℚ) ≤ (h2 : ℚ) := by exact_mod_cast le_trans hh0 hh12
  have hc12 : (h1 : ℚ) ≤ (h2 : ℚ) := by exact_mod_cast hh12
  have hd1 : (0 : ℚ) ≤ (h1 : ℚ) / 10 := by positivity
  have hd2 : (0 : ℚ) ≤ (h2 : ℚ) / 10 := by positivity
  have hd12 : (h1 : ℚ) / 10 ≤ (h2 : ℚ) / 10 := by linarith
  have hmono := mul_le_mul_of_nonneg_left hd12 haf
  refine ⟨?_, ?_, ?_⟩
  · simp only [HeatIsland.predict_temperature_increase]
    rw [abs_of_nonneg (by nlinarith), abs_of_nonneg (by nlinarith)]
    nlinarith
  · simp only [WaterAbsorption.predict_absorption_change]
    rw [abs_of_nonpos (by nlinarith), abs_of_nonpos (by nlinarith)]
    nlinarith
  · simp only [AirQuality.predict_aqi_change]
    rw [abs_of_nonneg (by nlinarith), abs_of_nonneg (by nlinarith)]
    nlinarith

/-- Witness for C7 at the triangle (0,0)-(1,0)-(0,1) and horizons 10 and
50. -/
theorem C7_witness :
    ((0 : ℤ) ≤ 10 ∧ (10 : ℤ) ≤ 50) ∧
      |HeatIsland.predict_temperature_increase
          [((0 : ℚ), (0 : ℚ)), (1, 0), (0, 1)]
          (calculate_area [((0 : ℚ), (0 : ℚ)), (1, 0), (0, 1)]) 10| ≤
        |HeatIsland.predict_temperature_increase
          [((0 : ℚ), (0 : ℚ)), (1, 0), (0, 1)]
          (calculate_area [((0 : ℚ), (0 : ℚ)), (1, 0), (0, 1)]) 50| :=
  ⟨⟨by norm_num, by norm_num⟩,
    (C7_change_magnitude_monotone _ 10 50 (by norm_num) (by norm_num)).1⟩

/-- Claim C8 (amended): each per-domain analysis is deterministic in all
fields except the wall-clock `analysis_date` metadata entry: two runs
with the same polygon and horizon agree once that timestamp field is
stripped (and are fully identical when the clock readings coincide). -/
theorem C8_analysis_deterministic_up_to_timestamp
    (coordinates : List (ℚ × ℚ)) (time_horizon : ℤ) (t1 t2 : String) :
    (HeatIsland.analyze_heat_island_effect coordinates time_horizon
        t1).stripDate =
      (HeatIsland.analyze_heat_island_effect coordinates time_horizon
        t2).stripDate ∧
    (WaterAbsorption.analyze_water_absorption coordinates time_horizon
        t1).stripDate =
      (WaterAbsorption.analyze_water_absorption coordinates time_horizon
        t2).stripDate ∧
    (AirQuality.analyze_air_quality_impact coordinates time_horizon
        t1).stripDate =
      (AirQuality.analyze_air_quality_impact coordinates time_horizon
        t2).stripDate :=
  ⟨rfl, rfl, rfl⟩

/-- Counterexample to C8 as stated: two runs of the same heat-island
analysis at different wall-clock times differ, because the result embeds
the clock reading in its `analysis_date` metadata field. -/
theorem C8_counterexample :
    HeatIsland.analyze_heat_island_effect
        [((0 : ℚ), (0 : ℚ)), (1, 0), (0, 1)] 10 "2025-01-01T00:00:00" ≠
      HeatIsland.analyze_heat_island_effect
        [((0 : ℚ), (0 : ℚ)), (1, 0), (0, 1)] 10 "2025-01-02T00:00:00" := by
  intro hcontra
  have hdate := congrArg HeatIsland.HeatAnalysis.analysis_date hcontra
  simp [HeatIsland.analyze_heat_island_effect] at hdate

/-- Claim C10: on the polygon path the water predictor clamps the
predicted absorption rate below at 0, never predicts a positive change,
never predicts a rate above the 0.6 baseline, and returns a flood risk
score in [0.32, 1], so the flood risk level is never Very Low. -/
theorem C10_flood_risk_window (coordinates : List (ℚ × ℚ))
    (time_horizon : ℤ) (now : String) (hth : 0 ≤ time_horizon) :
    (WaterAbsorption.analyze_water_absorption coordinates time_horizon
        now).absorption_rate_change ≤ 0 ∧
    0 ≤ (WaterAbsorption.analyze_water_absorption coordinates time_horizon
        now).predicted_absorption_rate ∧
    (WaterAbsorption.analyze_water_absorption coordinates time_horizon
        now).predicted_absorption_rate ≤ 0.6 ∧
    0.32 ≤ (WaterAbsorption.analyze_water_absorption coordinates
        time_horizon now).flood_risk_score ∧
    (WaterAbsorption.analyze_water_absorption coordinates time_horizon
        now).flood_risk_score ≤ 1 ∧
    (WaterAbsorption.analyze_water_absorption coordinates time_horizon
        now).flood_risk_level ≠ "Very Low" := by
  have ha0 := calculate_area_nonneg coordinates
  have hch := water_change_nonpos coordinates ha0 hth
  have hr0 : (0 : ℚ) ≤ max 0 (0.6 +
      WaterAbsorption.predict_absorption_change coordinates
        (calculate_area coordinates) time_horizon) := le_max_left _ _
  have hr6 : max 0 (0.6 +
      WaterAbsorption.predict_absorption_change coordinates
        (calculate_area coordinates) time_horizon) ≤ 0.6 :=
    max_le (by norm_num) (by linarith)
  obtain ⟨hf0, hf1⟩ := flood_risk_score_bounds hr0 hr6 ha0
  have h6cast : ((600 : ℤ) : ℚ) / 10 ^ 3 = 0.6 := by norm_num
  have h32cast : ((320 : ℤ) : ℚ) / 10 ^ 3 = 0.32 := by norm_num
  simp only [WaterAbsorption.analyze_water_absorption]
  refine ⟨?_, ?_, ?_, ?_, ?_, ?_⟩
  · exact pyRound_nonpos 3 hch
  · exact pyRound_nonneg 3 hr0
  · have hb : max 0 (0.6 +
        WaterAbsorption.predict_absorption_change coordinates
          (calculate_area coordinates) time_horizon) ≤
        ((600 : ℤ) : ℚ) / 10 ^ 3 := by
      rw [h6cast]
      exact hr6
    have hround := pyRound_le 3 hb
    rw [h6cast] at hround
    exact hround
  · have hb : ((320 : ℤ) : ℚ) / 10 ^ 3 ≤
        WaterAbsorption.calculate_flood_risk_score
          (max 0 (0.6 + WaterAbsorption.predict_absorption_change coordinates
            (calculate_area coordinates) time_horizon))
          (calculate_area coordinates) := by
      rw [h32cast]
      exact hf0
    have hround := le_pyRound 3 hb
    rw [h32cast] at hround
    exact hround
  · exact pyRound_le_one 3 hf1
  · exact water_risk_level_ne_very_low (by linarith)

/-- Witness for C10 at the triangle (0,0)-(1,0)-(0,1), horizon 10. -/
theorem C10_witness :
    (0 : ℤ) ≤ 10 ∧
      0.32 ≤ (WaterAbsorption.analyze_water_absorption
          [((0 : ℚ), (0 : ℚ)), (1, 0), (0, 1)] 10 "t").flood_risk_score ∧
      (WaterAbsorption.analyze_water_absorption
          [((0 : ℚ), (0 : ℚ)), (1, 0), (0, 1)] 10 "t").flood_risk_level ≠
        "Very Low" :=
  ⟨by norm_num,
    (C10_flood_risk_window _ 10 "t" (by norm_num)).2.2.2.1,
    (C10_flood_risk_window _ 10 "t" (by norm_num)).2.2.2.2.2⟩
